import Mathlib

/-!
Shallow embedding of `src/ObjectTraker.py`: an interactive object tracker
that lets an operator drag a bounding box on a video frame, tracks the
enclosed object, converts the tracked center's deviation from the frame
center into a four-channel fin-deflection command, and streams the command
over an optional serial link.

The visual tracking algorithm itself (OpenCV CSRT) is an external black
box: we model a tracker handle by the frame and box it was initialized
with, and the per-frame update result as an oracle input (`TrackingResult`)
to the loop iteration.  Frames are modelled by their shape (height, width)
plus an opaque content id.  Python floats are modelled by exact rationals;
Python `int()` conversion is truncation toward zero (`pyInt`).  The mouse
callback can raise in Python when a button-release arrives with no stored
start point, so it returns an `Option`.
-/

/-- A video frame: `shape` gives `(frame_h, frame_w, _)` in the source;
`content` is an opaque id standing for the pixel data. -/
structure Frame where
  frame_h : Nat
  frame_w : Nat
  content : Nat
deriving DecidableEq, Repr

/-- A bounding box `(x, y, width, height)` in pixel units.  The corner may
lie outside the frame (the tracker can report such boxes); width and height
are pixel counts, hence naturals. -/
structure BBox where
  x : Int
  y : Int
  w : Nat
  h : Nat
deriving DecidableEq, Repr

/-- The black-box tracker handle, identified by the frame and box it was
initialized with (`tracker.init(frame, bbox)` in the source).  It is
replaced, never mutated. -/
structure Tracker where
  init_frame : Frame
  init_bbox : BBox
deriving DecidableEq, Repr

/-- Result of `tracker.update(frame)`: `success bbox` models
`(True, bbox)` (with the box components already converted by `int`),
`lost` models `(False, _)`. -/
inductive TrackingResult where
  | success (bbox : BBox) : TrackingResult
  | lost : TrackingResult
deriving DecidableEq, Repr

/-- The mutable globals of the source: `drawing`, `start_point`,
`end_point`, `tracker`, `tracking_active`. -/
structure ProgState where
  drawing : Bool
  start_point : Option (Int × Int)
  end_point : Option (Int × Int)
  tracker : Option Tracker
  tracking_active : Bool
deriving DecidableEq, Repr

/-- The OpenCV mouse events the callback distinguishes. -/
inductive MouseEvent where
  | lbuttondown : MouseEvent
  | mousemove : MouseEvent
  | lbuttonup : MouseEvent
  | other : MouseEvent
deriving DecidableEq, Repr

/-- A tracker-initialization call `init_tracker(frame, bbox)`, recorded as
the pair of arguments. -/
abbrev InitCall := Frame × BBox

/-- `init_tracker(frame, bbox)`: create a tracker on `(frame, bbox)` and
set `tracking_active = True`. -/
def init_tracker (frame : Frame) (bbox : BBox) (s : ProgState) : ProgState :=
  { s with tracker := some ⟨frame, bbox⟩, tracking_active := true }

/-- `select_roi_callback(event, x, y, flags, param)`: the mouse callback.
Returns the updated globals together with the list of tracker-initialization
calls it issued; `none` models the Python `TypeError` raised on a
button-release with `start_point = None`. -/
def select_roi_callback (event : MouseEvent) (x y : Int) (frame : Frame)
    (s : ProgState) : Option (ProgState × List InitCall) :=
  match event with
  | .lbuttondown =>
      some ({ s with drawing := true, start_point := some (x, y),
                     end_point := some (x, y), tracking_active := false }, [])
  | .mousemove =>
      if s.drawing then some ({ s with end_point := some (x, y) }, [])
      else some (s, [])
  | .lbuttonup =>
      match s.start_point with
      | none => none
      | some p =>
          let s1 := { s with drawing := false, end_point := some (x, y) }
          let x1 := p.1
          let y1 := p.2
          let x_min := min x1 x
          let y_min := min y1 y
          let width : Nat := (x - x1).natAbs
          let height : Nat := (y - y1).natAbs
          if 10 < width ∧ 10 < height then
            let bbox : BBox := ⟨x_min, y_min, width, height⟩
            (some (init_tracker frame bbox s1, [(frame, bbox)]))
          else some (s1, [])
  | .other => some (s, [])

/-- Python `int()` applied to a real value: truncation toward zero,
computed as truncating division of the reduced numerator by the
denominator. -/
def pyInt (q : Rat) : Int :=
  q.num.tdiv q.den

/-- `MAX_DEFLECTION` from the source. -/
def MAX_DEFLECTION : Int := 30

/-- The four-channel deflection command `(fin_left, fin_right, fin_top,
fin_bottom)`. -/
structure DeflectionCommand where
  fin_left : Int
  fin_right : Int
  fin_top : Int
  fin_bottom : Int
deriving DecidableEq, Repr

/-- Lines 119-127 of the source: normalize the tracked center against the
frame dimensions and convert to fin deflections with Python `int()`
(truncation toward zero, modelled by `pyInt`). -/
def finCommand (center_x center_y : Int) (frame_w frame_h : Nat) :
    DeflectionCommand :=
  let error_x : Rat := ((center_x : Rat) - (frame_w : Rat) / 2) / ((frame_w : Rat) / 2)
  let error_y : Rat := ((center_y : Rat) - (frame_h : Rat) / 2) / ((frame_h : Rat) / 2)
  { fin_left := pyInt (-error_x * (MAX_DEFLECTION : Rat))
    fin_right := pyInt (error_x * (MAX_DEFLECTION : Rat))
    fin_top := pyInt (-error_y * (MAX_DEFLECTION : Rat))
    fin_bottom := pyInt (error_y * (MAX_DEFLECTION : Rat)) }

/-- The tracked center `(x + w // 2, y + h // 2)` of a reported box
(lines 114-115; Python floor division equals truncation on the
nonnegative widths of the data model). -/
def centerOf (b : BBox) : Int × Int :=
  (b.x + ((b.w / 2 : Nat) : Int), b.y + ((b.h / 2 : Nat) : Int))

/-- The serial line `f"<{fin_left},{fin_right},{fin_top},{fin_bottom}>\n"`. -/
def mkCommand (c : DeflectionCommand) : String :=
  "<" ++ toString c.fin_left ++ "," ++ toString c.fin_right ++ ","
      ++ toString c.fin_top ++ "," ++ toString c.fin_bottom ++ ">" ++ "\n"

/-- Lines 109-145 of the source: the tracking section of one loop
iteration.  Given the optional serial handle, the frame, the oracle result
of `tracker.update`, and the globals, it returns the updated globals, the
list of serial writes attempted, and the number of `tracker.update`
calls made. -/
def trackingStep (ser : Option Unit) (frame : Frame) (upd : TrackingResult)
    (s : ProgState) : ProgState × List String × Nat :=
  if s.tracking_active && s.tracker.isSome then
    match upd with
    | .success bbox =>
        let c := finCommand (centerOf bbox).1 (centerOf bbox).2
                   frame.frame_w frame.frame_h
        let writes := if ser.isSome then [mkCommand c] else []
        (s, writes, 1)
    | .lost => ({ s with tracking_active := false }, [], 1)
  else (s, [], 0)

/-- `ord` from Python. -/
def ord (c : Char) : Nat := c.toNat

/-- Lines 158-166 of the source: key handling.  Returns the updated
globals and whether the loop breaks. -/
def keyStep (key : Nat) (s : ProgState) : ProgState × Bool :=
  if key = ord 'q' then (s, true)
  else if key = ord 'r' then
    ({ s with tracking_active := false, tracker := none, drawing := false,
              start_point := none, end_point := none }, false)
  else (s, false)

/-- Output of one control-loop iteration. -/
structure IterOutput where
  state : ProgState
  serial_writes : List String
  tracker_updates : Nat
  quit : Bool
deriving DecidableEq, Repr

/-- One iteration of the `while True` loop in `main` (after a successful
frame grab): the tracking section, then key handling.  `ser` is the
optional serial handle set once at startup; `upd` is the oracle for
`tracker.update(frame)`; `key` is `cv2.waitKey(1) & 0xFF`. -/
def loopIter (ser : Option Unit) (frame : Frame) (upd : TrackingResult)
    (key : Nat) (s : ProgState) : IterOutput :=
  let t := trackingStep ser frame upd s
  let k := keyStep key t.1
  { state := k.1, serial_writes := t.2.1, tracker_updates := t.2.2, quit := k.2 }

/-- The command mapping as the specification words it: center
`(x + width/2, y + height/2)` using integer truncation, normalized errors
`(center - dim/2) / (dim/2)`, and each fin the truncating-toward-zero
integer conversion of the corresponding `±error * 30`. -/
def specCommand (b : BBox) (frame_w frame_h : Nat) : DeflectionCommand :=
  let center_x : Int := b.x + pyInt ((b.w : Rat) / 2)
  let center_y : Int := b.y + pyInt ((b.h : Rat) / 2)
  let error_x : Rat := ((center_x : Rat) - (frame_w : Rat) / 2) / ((frame_w : Rat) / 2)
  let error_y : Rat := ((center_y : Rat) - (frame_h : Rat) / 2) / ((frame_h : Rat) / 2)
  { fin_left := pyInt (-error_x * 30)
    fin_right := pyInt (error_x * 30)
    fin_top := pyInt (-error_y * 30)
    fin_bottom := pyInt (error_y * 30) }

/-- Truncation toward zero is an odd function: `int(-v) = -int(v)`. -/
theorem pyInt_neg (q : Rat) : pyInt (-q) = -pyInt q := by
  unfold pyInt
  rw [Rat.neg_num, Rat.neg_den, Int.neg_tdiv]

/-- On nonnegative values truncation toward zero agrees with the floor. -/
theorem pyInt_of_nonneg {q : Rat} (h : 0 ≤ q) : pyInt q = ⌊q⌋ := by
  unfold pyInt
  rw [Rat.floor_def]
  exact Int.tdiv_eq_ediv (Rat.num_nonneg.mpr h) (by positivity)
/-- Truncating an integer fraction is truncating integer division. -/
theorem pyInt_intCast_div_natCast (a : Int) (b : Nat) :
    pyInt ((a : Rat) / (b : Rat)) = a.tdiv b := by
  rcases Nat.eq_zero_or_pos b with hb | hb
  · subst hb
    simp [pyInt]
  · have hbq : (0 : Rat) < (b : Rat) := by exact_mod_cast hb
    have hbz : ((b : Nat) : Int) ≠ 0 := by exact_mod_cast hb.ne'
    rcases le_or_lt 0 a with ha | ha
    · have hq : (0 : Rat) ≤ (a : Rat) / (b : Rat) :=
        div_nonneg (by exact_mod_cast ha) hbq.le
      rw [pyInt_of_nonneg hq, Rat.floor_intCast_div_natCast,
        Int.tdiv_eq_ediv ha (by positivity)]
    · have hna : (0 : Int) ≤ -a := by omega
      have key : pyInt (((-a : Int) : Rat) / (b : Rat)) = (-a).tdiv b := by
        have hq : (0 : Rat) ≤ ((-a : Int) : Rat) / (b : Rat) :=
          div_nonneg (by exact_mod_cast hna) hbq.le
        rw [pyInt_of_nonneg hq, Rat.floor_intCast_div_natCast,
          Int.tdiv_eq_ediv hna (by positivity)]
      have hneg : ((a : Rat) / (b : Rat)) = -(((-a : Int) : Rat) / (b : Rat)) := by
        push_cast
        ring
      rw [hneg, pyInt_neg, key, Int.neg_tdiv, neg_neg]

/-- Truncating the spec-worded center halves agrees with the source's
floor division on the nonnegative widths of the data model. -/
theorem pyInt_half_natCast (w : Nat) : pyInt ((w : Rat) / 2) = ((w / 2 : Nat) : Int) := by
  have h2 : ((w : Rat) / 2) = (((w : Int) : Rat)) / (((2 : Nat) : Rat)) := by
    push_cast
    ring
  rw [h2, pyInt_intCast_div_natCast]
  exact (Int.ofNat_tdiv w 2).symm

/-- Closed form of the command computation over the integers: each fin is
the truncating division of `±(2*center - dim) * 30` by the frame
dimension. -/
theorem finCommand_eq_tdiv (cx cy : Int) (fw fh : Nat) :
    finCommand cx cy fw fh =
      ⟨ ((((fw : Int) - 2 * cx) * 30)).tdiv (fw : Int),
        (((2 * cx - (fw : Int)) * 30)).tdiv (fw : Int),
        ((((fh : Int) - 2 * cy) * 30)).tdiv (fh : Int),
        (((2 * cy - (fh : Int)) * 30)).tdiv (fh : Int) ⟩ := by
  have harg : ∀ (c : Int) (d : Nat),
      (((c : Rat) - (d : Rat) / 2) / ((d : Rat) / 2)) * ((MAX_DEFLECTION : Int) : Rat)
        = (((2 * c - (d : Int)) * 30 : Int) : Rat) / ((d : Nat) : Rat) := by
    intro c d
    rcases Nat.eq_zero_or_pos d with hd | hd
    · subst hd
      norm_num [MAX_DEFLECTION]
    · have hdq : ((d : Nat) : Rat) ≠ 0 := by
        have : (0 : Rat) < (d : Rat) := by exact_mod_cast hd
        exact this.ne'
      rw [MAX_DEFLECTION]
      field_simp
      ring
  have hargn : ∀ (c : Int) (d : Nat),
      (-(((c : Rat) - (d : Rat) / 2) / ((d : Rat) / 2))) * ((MAX_DEFLECTION : Int) : Rat)
        = ((((d : Int) - 2 * c) * 30 : Int) : Rat) / ((d : Nat) : Rat) := by
    intro c d
    have h := harg c d
    have : (-(((c : Rat) - (d : Rat) / 2) / ((d : Rat) / 2))) * ((MAX_DEFLECTION : Int) : Rat)
        = -((((c : Rat) - (d : Rat) / 2) / ((d : Rat) / 2)) * ((MAX_DEFLECTION : Int) : Rat)) := by
      ring
    rw [this, h, ← neg_div]
    congr 1
    push_cast
    ring
  simp only [finCommand]
  rw [harg cx fw, hargn cx fw, harg cy fh, hargn cy fh,
    pyInt_intCast_div_natCast, pyInt_intCast_div_natCast,
    pyInt_intCast_div_natCast, pyInt_intCast_div_natCast]

example : finCommand 210 50 100 100 = ⟨-96, 96, 0, 0⟩ := by
  rw [finCommand_eq_tdiv]
  decide
example : finCommand 320 240 640 480 = ⟨0, 0, 0, 0⟩ := by
  rw [finCommand_eq_tdiv]
  decide
example : finCommand 640 240 640 480 = ⟨-30, 30, 0, 0⟩ := by
  rw [finCommand_eq_tdiv]
  decide
example : mkCommand ⟨0, 0, 0, 0⟩ = "<0,0,0,0>" ++ "\n" := by decide

/-- Helper: the truncating division of `a * 30` by a dimension `d`
bounding `|a|` has magnitude at most 30. -/
theorem tdiv_mul_thirty_natAbs_le {a : Int} {d : Nat} (h : a.natAbs ≤ d) :
    ((a * 30).tdiv (d : Int)).natAbs ≤ 30 := by
  rcases Nat.eq_zero_or_pos d with hd | hd
  · subst hd
    simp [Int.tdiv_zero]
  · rw [Int.natAbs_tdiv, Int.natAbs_mul]
    have hd' : ((d : Int)).natAbs = d := Int.natAbs_ofNat d
    have h30 : (30 : Int).natAbs = 30 := rfl
    rw [hd', h30]
    calc a.natAbs * 30 / d ≤ d * 30 / d := Nat.div_le_div_right (by nlinarith)
      _ = 30 := by rw [Nat.mul_comm, Nat.mul_div_cancel _ hd]

/-- C10: on every frame on which a deflection command is computed, the
command is antisymmetric per axis: `fin_left = -fin_right` and
`fin_top = -fin_bottom`, because truncation toward zero is an odd
function. -/
theorem command_antisymmetric_per_axis (cx cy : Int) (fw fh : Nat) :
    (finCommand cx cy fw fh).fin_left = -(finCommand cx cy fw fh).fin_right ∧
    (finCommand cx cy fw fh).fin_top = -(finCommand cx cy fw fh).fin_bottom := by
  constructor <;> simp only [finCommand, neg_mul, pyInt_neg]

/-- C6: a reset key press received in any state returns the state to Idle
and clears any active tracker: `tracking_active` false, tracker `None`,
`drawing` false, both selection points `None`. -/
theorem reset_key_returns_to_idle (ser : Option Unit) (frame : Frame)
    (upd : TrackingResult) (s : ProgState) :
    (loopIter ser frame upd (ord 'r') s).state =
      { drawing := false, start_point := none, end_point := none,
        tracker := none, tracking_active := false } := by
  have hneq : ord 'r' ≠ ord 'q' := by decide
  simp [loopIter, keyStep, hneq]

/-- C7: when the serial connection failed to open at startup (handle
`None`), no loop iteration attempts a serial write; `loopIter` is a total
function, so the absence of a connection never raises. -/
theorem no_write_without_serial (frame : Frame) (upd : TrackingResult)
    (key : Nat) (s : ProgState) :
    (loopIter none frame upd key s).serial_writes = [] := by
  cases upd <;>
    by_cases h : (s.tracking_active && s.tracker.isSome) = true <;>
      simp [loopIter, trackingStep, h]

/-- C8: on a frame where the tracker update reports `lost`, the same
iteration sets `tracking_active` to false, sends no serial command, and
calls the tracker update exactly once (no retry); `loopIter` is total, so
no exception is raised. -/
theorem tracking_lost_stops_tracking (ser : Option Unit) (frame : Frame)
    (key : Nat) (s : ProgState) (h1 : s.tracking_active = true)
    (h2 : s.tracker.isSome = true) :
    (loopIter ser frame .lost key s).state.tracking_active = false ∧
    (loopIter ser frame .lost key s).serial_writes = [] ∧
    (loopIter ser frame .lost key s).tracker_updates = 1 := by
  have hrq : ord 'r' ≠ ord 'q' := by decide
  by_cases hq : key = ord 'q' <;> by_cases hr : key = ord 'r' <;>
    exact ⟨by simp [loopIter, trackingStep, keyStep, h1, h2, hq, hr, hrq],
           by simp [loopIter, trackingStep, keyStep, h1, h2, hq, hr, hrq],
           by simp [loopIter, trackingStep, keyStep, h1, h2, hq, hr, hrq]⟩

/-- C9: a pointer press at `(x, y)` in any state (in particular Idle or
Tracking) starts a drag with `start_point = end_point = (x, y)` and
discards any prior tracking (`tracking_active` false); consequently a loop
iteration from the resulting state performs no tracker update and no
serial write. -/
theorem pointer_press_starts_drag (x y : Int) (frame : Frame) (s : ProgState) :
    select_roi_callback .lbuttondown x y frame s =
      some ({ s with drawing := true, start_point := some (x, y),
                     end_point := some (x, y), tracking_active := false }, []) ∧
    (∀ (ser : Option Unit) (frame2 : Frame) (upd : TrackingResult) (key : Nat),
      (loopIter ser frame2 upd key
          { s with drawing := true, start_point := some (x, y),
                   end_point := some (x, y), tracking_active := false }).tracker_updates = 0 ∧
      (loopIter ser frame2 upd key
          { s with drawing := true, start_point := some (x, y),
                   end_point := some (x, y), tracking_active := false }).serial_writes = []) := by
  refine ⟨rfl, ?_⟩
  intro ser frame2 upd key
  exact ⟨by simp [loopIter, trackingStep], by simp [loopIter, trackingStep]⟩

/-- C1: a completed drag released at `(x2, y2)` after a press at
`(x1, y1)`, with both coordinate differences exceeding 10 pixels, issues
exactly one tracker-initialization call with the axis-aligned normalized
box `(min x1 x2, min y1 y2, |x2 - x1|, |y2 - y1|)` and sets
`tracking_active` to true. -/
theorem selection_accepted_inits_tracker (x1 y1 x2 y2 : Int) (frame : Frame)
    (s : ProgState) (hstart : s.start_point = some (x1, y1))
    (hw : 10 < (x2 - x1).natAbs) (hh : 10 < (y2 - y1).natAbs) :
    select_roi_callback .lbuttonup x2 y2 frame s =
      some ({ s with drawing := false, end_point := some (x2, y2),
                     tracker := some ⟨frame, ⟨min x1 x2, min y1 y2,
                       (x2 - x1).natAbs, (y2 - y1).natAbs⟩⟩,
                     tracking_active := true },
        [(frame, ⟨min x1 x2, min y1 y2, (x2 - x1).natAbs, (y2 - y1).natAbs⟩)]) := by
  simp only [select_roi_callback, hstart]
  rw [if_pos ⟨hw, hh⟩]
  rfl

/-- C4: a completed drag whose resulting box has width ≤ 10 or height ≤ 10
issues no tracker-initialization call, leaves `drawing` false, leaves the
tracker handle untouched, and leaves `tracking_active` at false. -/
theorem small_selection_discarded (x1 y1 x2 y2 : Int) (frame : Frame)
    (s : ProgState) (hstart : s.start_point = some (x1, y1))
    (hact : s.tracking_active = false)
    (hsmall : (x2 - x1).natAbs ≤ 10 ∨ (y2 - y1).natAbs ≤ 10) :
    select_roi_callback .lbuttonup x2 y2 frame s =
      some ({ s with drawing := false, end_point := some (x2, y2) }, []) ∧
    ({ s with drawing := false, end_point := some (x2, y2) } : ProgState).tracking_active = false ∧
    ({ s with drawing := false, end_point := some (x2, y2) } : ProgState).tracker = s.tracker := by
  refine ⟨?_, by simp [hact], rfl⟩
  simp only [select_roi_callback, hstart]
  rw [if_neg (by omega : ¬(10 < (x2 - x1).natAbs ∧ 10 < (y2 - y1).natAbs))]

/-- C2: on every frame on which the tracker update succeeds, the
transmitted command is exactly the spec-worded mapping: center by
truncating integer division, errors normalized by half the frame
dimensions, fins the truncating-toward-zero conversion of
`±error * 30`. -/
theorem success_command_refines_spec (frame : Frame) (b : BBox) (key : Nat)
    (s : ProgState) (h1 : s.tracking_active = true)
    (h2 : s.tracker.isSome = true) :
    (loopIter (some ()) frame (.success b) key s).serial_writes
      = [mkCommand (specCommand b frame.frame_w frame.frame_h)] := by
  have hspec : specCommand b frame.frame_w frame.frame_h
      = finCommand (centerOf b).1 (centerOf b).2 frame.frame_w frame.frame_h := by
    simp only [specCommand, finCommand, centerOf, pyInt_half_natCast, MAX_DEFLECTION]
    norm_num
  simp [loopIter, trackingStep, h1, h2, hspec]

/-- C3 (amended): every transmitted command component has magnitude at
most 30 whenever the tracked center lies within the frame; the code does
not clamp, so centers outside the frame can exceed 30. -/
theorem command_bounded_when_center_in_frame (frame : Frame) (b : BBox)
    (key : Nat) (s : ProgState) (h1 : s.tracking_active = true)
    (h2 : s.tracker.isSome = true)
    (hx0 : 0 ≤ (centerOf b).1) (hx1 : (centerOf b).1 ≤ (frame.frame_w : Int))
    (hy0 : 0 ≤ (centerOf b).2) (hy1 : (centerOf b).2 ≤ (frame.frame_h : Int)) :
    ∃ c : DeflectionCommand,
      (loopIter (some ()) frame (.success b) key s).serial_writes = [mkCommand c] ∧
      c.fin_left.natAbs ≤ 30 ∧ c.fin_right.natAbs ≤ 30 ∧
      c.fin_top.natAbs ≤ 30 ∧ c.fin_bottom.natAbs ≤ 30 := by
  refine ⟨finCommand (centerOf b).1 (centerOf b).2 frame.frame_w frame.frame_h,
    by simp [loopIter, trackingStep, h1, h2], ?_, ?_, ?_, ?_⟩ <;>
    rw [finCommand_eq_tdiv] <;>
    exact tdiv_mul_thirty_natAbs_le (by omega)

/-- C3 counterexample: for the tracker-reported box `(200, 40, 20, 20)` on
a 100×100 frame the center is `(210, 50)`, outside the frame; the computed
`fin_right` is 96, whose magnitude exceeds 30, and the line `<-96,96,0,0>`
is transmitted. -/
theorem command_exceeds_thirty_outside_frame :
    (finCommand 210 50 100 100).fin_right = 96 ∧
    ¬ ((finCommand 210 50 100 100).fin_right.natAbs ≤ 30) ∧
    (loopIter (some ()) ⟨100, 100, 2⟩ (.success ⟨200, 40, 20, 20⟩) 255
        ⟨false, none, none, some ⟨⟨100, 100, 2⟩, ⟨200, 40, 20, 20⟩⟩, true⟩).serial_writes
      = ["<-96,96,0,0>" ++ "\n"] := by
  have hco : centerOf ⟨200, 40, 20, 20⟩ = (210, 50) := by decide
  have hfc : finCommand 210 50 100 100 = ⟨-96, 96, 0, 0⟩ := by
    rw [finCommand_eq_tdiv]
    decide
  refine ⟨by rw [hfc], by rw [hfc]; decide, ?_⟩
  simp [loopIter, trackingStep, hco, hfc]
  decide

/-- C5: a tracked center exactly at the frame center yields the zero
command and the wire line `<0,0,0,0>`; a tracked center at the frame's
right edge yields `fin_left = -30` and `fin_right = 30`. -/
theorem center_zero_and_edge_extreme_commands (cx cy : Int) (fw fh : Nat)
    (hfw : 0 < fw) (hfh : 0 < fh) :
    (2 * cx = (fw : Int) → 2 * cy = (fh : Int) →
      finCommand cx cy fw fh = ⟨0, 0, 0, 0⟩ ∧
      mkCommand (finCommand cx cy fw fh) = "<0,0,0,0>" ++ "\n") ∧
    (cx = (fw : Int) →
      (finCommand cx cy fw fh).fin_left = -30 ∧
      (finCommand cx cy fw fh).fin_right = 30) := by
  constructor
  · intro hx hy
    have hc : finCommand cx cy fw fh = ⟨0, 0, 0, 0⟩ := by
      rw [finCommand_eq_tdiv]
      have e1 : ((fw : Int) - 2 * cx) = 0 := by omega
      have e2 : (2 * cx - (fw : Int)) = 0 := by omega
      have e3 : ((fh : Int) - 2 * cy) = 0 := by omega
      have e4 : (2 * cy - (fh : Int)) = 0 := by omega
      rw [e1, e2, e3, e4]
      simp [Int.zero_tdiv]
    exact ⟨hc, by rw [hc]; decide⟩
  · intro hx
    have hfz : (fw : Int) ≠ 0 := by
      have : (0 : Int) < (fw : Int) := by exact_mod_cast hfw
      omega
    rw [finCommand_eq_tdiv]
    constructor
    · show (((fw : Int) - 2 * cx) * 30).tdiv (fw : Int) = -30
      have e : ((fw : Int) - 2 * cx) * 30 = (-30) * (fw : Int) := by
        rw [hx]
        ring
      rw [e, Int.mul_tdiv_cancel _ hfz]
    · show ((2 * cx - (fw : Int)) * 30).tdiv (fw : Int) = 30
      have e : (2 * cx - (fw : Int)) * 30 = 30 * (fw : Int) := by
        rw [hx]
        ring
      rw [e, Int.mul_tdiv_cancel _ hfz]

/-- C1 witness: dragging from (50,50) and releasing at (10,10) yields the
normalized box (10,10,40,40), one init call, and Tracking. -/
theorem selection_accepted_inits_tracker_witness :
    ((⟨true, some (50, 50), some (12, 12), none, false⟩ : ProgState).start_point
        = some (50, 50) ∧
      10 < ((10 : Int) - 50).natAbs ∧ 10 < ((10 : Int) - 50).natAbs) ∧
    select_roi_callback .lbuttonup 10 10 ⟨480, 640, 7⟩
        ⟨true, some (50, 50), some (12, 12), none, false⟩ =
      some (⟨false, some (50, 50), some (10, 10),
              some ⟨⟨480, 640, 7⟩, ⟨10, 10, 40, 40⟩⟩, true⟩,
        [(⟨480, 640, 7⟩, ⟨10, 10, 40, 40⟩)]) :=
  ⟨⟨rfl, by decide, by decide⟩,
    selection_accepted_inits_tracker 50 50 10 10 ⟨480, 640, 7⟩
      ⟨true, some (50, 50), some (12, 12), none, false⟩ rfl (by decide) (by decide)⟩

/-- C4 witness: dragging from (50,50) and releasing at (55,200) (width 5)
discards the selection without initializing a tracker. -/
theorem small_selection_discarded_witness :
    ((⟨true, some (50, 50), some (55, 55), none, false⟩ : ProgState).start_point
        = some (50, 50) ∧
      (⟨true, some (50, 50), some (55, 55), none, false⟩ : ProgState).tracking_active
        = false ∧
      (((55 : Int) - 50).natAbs ≤ 10 ∨ ((200 : Int) - 50).natAbs ≤ 10)) ∧
    (select_roi_callback .lbuttonup 55 200 ⟨480, 640, 4⟩
        ⟨true, some (50, 50), some (55, 55), none, false⟩ =
      some (⟨false, some (50, 50), some (55, 200), none, false⟩, []) ∧
      (⟨false, some (50, 50), some (55, 200), none, false⟩ : ProgState).tracking_active
        = false ∧
      (⟨false, some (50, 50), some (55, 200), none, false⟩ : ProgState).tracker
        = (⟨true, some (50, 50), some (55, 55), none, false⟩ : ProgState).tracker) :=
  ⟨⟨rfl, rfl, Or.inl (by decide)⟩,
    small_selection_discarded 50 50 55 200 ⟨480, 640, 4⟩
      ⟨true, some (50, 50), some (55, 55), none, false⟩ rfl rfl (Or.inl (by decide))⟩

/-- C2 witness: a successful update of box (300,200,40,40) on a 640×480
frame transmits exactly the spec-worded command. -/
theorem success_command_refines_spec_witness :
    ((⟨false, none, none, some ⟨⟨480, 640, 1⟩, ⟨100, 100, 50, 50⟩⟩, true⟩ : ProgState).tracking_active
        = true ∧
      (⟨false, none, none, some ⟨⟨480, 640, 1⟩, ⟨100, 100, 50, 50⟩⟩, true⟩ : ProgState).tracker.isSome
        = true) ∧
    (loopIter (some ()) ⟨480, 640, 1⟩ (.success ⟨300, 200, 40, 40⟩) 255
        ⟨false, none, none, some ⟨⟨480, 640, 1⟩, ⟨100, 100, 50, 50⟩⟩, true⟩).serial_writes
      = [mkCommand (specCommand ⟨300, 200, 40, 40⟩ 640 480)] :=
  ⟨⟨rfl, rfl⟩,
    success_command_refines_spec ⟨480, 640, 1⟩ ⟨300, 200, 40, 40⟩ 255
      ⟨false, none, none, some ⟨⟨480, 640, 1⟩, ⟨100, 100, 50, 50⟩⟩, true⟩ rfl rfl⟩

/-- C3 witness: the box (100,100,40,40) has center (120,120), inside a
640×480 frame, so every transmitted component is bounded by 30. -/
theorem command_bounded_when_center_in_frame_witness :
    ((⟨false, none, none, some ⟨⟨480, 640, 3⟩, ⟨100, 100, 40, 40⟩⟩, true⟩ : ProgState).tracking_active
        = true ∧
      (⟨false, none, none, some ⟨⟨480, 640, 3⟩, ⟨100, 100, 40, 40⟩⟩, true⟩ : ProgState).tracker.isSome
        = true ∧
      0 ≤ (centerOf ⟨100, 100, 40, 40⟩).1 ∧
      (centerOf ⟨100, 100, 40, 40⟩).1 ≤ ((640 : Nat) : Int) ∧
      0 ≤ (centerOf ⟨100, 100, 40, 40⟩).2 ∧
      (centerOf ⟨100, 100, 40, 40⟩).2 ≤ ((480 : Nat) : Int)) ∧
    (∃ c : DeflectionCommand,
      (loopIter (some ()) ⟨480, 640, 3⟩ (.success ⟨100, 100, 40, 40⟩) 255
          ⟨false, none, none, some ⟨⟨480, 640, 3⟩, ⟨100, 100, 40, 40⟩⟩, true⟩).serial_writes
        = [mkCommand c] ∧
      c.fin_left.natAbs ≤ 30 ∧ c.fin_right.natAbs ≤ 30 ∧
      c.fin_top.natAbs ≤ 30 ∧ c.fin_bottom.natAbs ≤ 30) :=
  ⟨⟨rfl, rfl, by decide, by decide, by decide, by decide⟩,
    command_bounded_when_center_in_frame ⟨480, 640, 3⟩ ⟨100, 100, 40, 40⟩ 255
      ⟨false, none, none, some ⟨⟨480, 640, 3⟩, ⟨100, 100, 40, 40⟩⟩, true⟩ rfl rfl
      (by decide) (by decide) (by decide) (by decide)⟩

/-- C5 witness: on a 640×480 frame, center (320,240) yields the zero
command and line `<0,0,0,0>`; center (640,240) at the right edge yields
`fin_left = -30`, `fin_right = 30`. -/
theorem center_zero_and_edge_extreme_commands_witness :
    (0 < 640 ∧ 0 < 480 ∧
      2 * (320 : Int) = ((640 : Nat) : Int) ∧ 2 * (240 : Int) = ((480 : Nat) : Int) ∧
      (finCommand 320 240 640 480 = ⟨0, 0, 0, 0⟩ ∧
        mkCommand (finCommand 320 240 640 480) = "<0,0,0,0>" ++ "\n")) ∧
    ((640 : Int) = ((640 : Nat) : Int) ∧
      ((finCommand 640 240 640 480).fin_left = -30 ∧
        (finCommand 640 240 640 480).fin_right = 30)) :=
  ⟨⟨by decide, by decide, by decide, by decide,
      (center_zero_and_edge_extreme_commands 320 240 640 480 (by decide) (by decide)).1
        (by decide) (by decide)⟩,
    ⟨by decide,
      (center_zero_and_edge_extreme_commands 640 240 640 480 (by decide) (by decide)).2
        (by decide)⟩⟩

/-- C8 witness: a lost update on an active tracker clears
`tracking_active`, writes nothing, and performs exactly one update call. -/
theorem tracking_lost_stops_tracking_witness :
    ((⟨false, none, none, some ⟨⟨480, 640, 5⟩, ⟨10, 10, 20, 20⟩⟩, true⟩ : ProgState).tracking_active
        = true ∧
      (⟨false, none, none, some ⟨⟨480, 640, 5⟩, ⟨10, 10, 20, 20⟩⟩, true⟩ : ProgState).tracker.isSome
        = true) ∧
    ((loopIter (some ()) ⟨480, 640, 5⟩ .lost 255
        ⟨false, none, none, some ⟨⟨480, 640, 5⟩, ⟨10, 10, 20, 20⟩⟩, true⟩).state.tracking_active
        = false ∧
      (loopIter (some ()) ⟨480, 640, 5⟩ .lost 255
        ⟨false, none, none, some ⟨⟨480, 640, 5⟩, ⟨10, 10, 20, 20⟩⟩, true⟩).serial_writes = [] ∧
      (loopIter (some ()) ⟨480, 640, 5⟩ .lost 255
        ⟨false, none, none, some ⟨⟨480, 640, 5⟩, ⟨10, 10, 20, 20⟩⟩, true⟩).tracker_updates = 1) :=
  ⟨⟨rfl, rfl⟩,
    tracking_lost_stops_tracking (some ()) ⟨480, 640, 5⟩ 255
      ⟨false, none, none, some ⟨⟨480, 640, 5⟩, ⟨10, 10, 20, 20⟩⟩, true⟩ rfl rfl⟩
